import Mathlib

/-!
Verification development for the `sagemaker-nemo-asr-parakeet` repository.

Part 1 models `utils/prepare_nemo_model.py`: the archive validator
`_tar_has_model_nemo`, the metadata normalizer `_deterministic_filter`,
the gzip-compressed tar packaging step, and the orchestrating function
`prepare_nemo_artifact`.

Modelling conventions:
* The file system is a flat association list from path strings to nodes
  (directory or regular file).  Lookup takes the first match.
* A regular file's content is classified by how the Python `tarfile`
  module observes it: an arbitrary blob that is not a tar archive, an
  uncompressed tar archive, or a gzip-compressed tar archive.  For a
  gzip tar we record the gzip stream header fields and the list of tar
  member entries; `truncated = true` means the member listing cannot be
  read to the end (reading it raises inside `tarfile`).
* Equality of `FileContent` values models byte identity of the stored
  stream: the gzip header fields MTIME (stream bytes 4..7) and FNAME,
  the tar member metadata and data, and the compression of identical
  payloads with the fixed default level are each injectively reflected
  in the concrete bytes.
* Machine-level sizes are `Nat`; byte values are `Nat` (0..255 by use).
-/

deriving instance DecidableEq for Except

/-- Tar entry type as distinguished by `tarfile.TarInfo.isreg` /
`isfile` (regular file), `isdir`, and everything else. -/
inductive EntryType
  | reg
  | dir
  | other
  deriving DecidableEq

/-- The metadata fields of a `tarfile.TarInfo` object that
`_deterministic_filter` and `_tar_has_model_nemo` observe or mutate. -/
structure TarInfo where
  name : String
  etype : EntryType
  size : Nat
  mode : Nat
  uid : Nat
  gid : Nat
  uname : String
  gname : String
  mtime : Nat
  deriving DecidableEq

/-- One member of a tar archive: its header metadata and its data bytes. -/
structure TarEntry where
  info : TarInfo
  data : List Nat
  deriving DecidableEq

/-- The gzip stream header fields that `gzip.GzipFile` writes and that can
vary between runs: MTIME (bytes 4..7 of the stream; `GzipFile.__init__`
defaults it to `int(time.time())` when no `mtime` argument is given, and
`tarfile.TarFile.gzopen` passes none) and FNAME (the output file's base
name with a trailing ".gz" stripped). -/
structure GzipHeader where
  mtime : Nat
  fname : String
  deriving DecidableEq

/-- Content of a regular file, classified by how `tarfile` reads it. -/
inductive FileContent
  | raw (bytes : List Nat)
  | tarPlain (entries : List TarEntry)
  | gzTar (header : GzipHeader) (entries : List TarEntry) (truncated : Bool)
  deriving DecidableEq

/-- A file-system node: a directory or a regular file. -/
inductive FsNode
  | dir
  | file (content : FileContent)
  deriving DecidableEq

/-- Flat file-system model: association list from paths to nodes. -/
def Fs : Type := List (String × FsNode)

instance : DecidableEq Fs := inferInstanceAs (DecidableEq (List (String × FsNode)))

/-- Path lookup (first match). -/
def Fs.lookup (fs : Fs) (p : String) : Option FsNode :=
  List.lookup p fs

/-- Store a node at a path, replacing any previous node there. -/
def Fs.set (fs : Fs) (p : String) (n : FsNode) : Fs :=
  (p, n) :: fs.filter (fun q => q.1 ≠ p)

/-- `os.path.exists`. -/
def Fs.existsPath (fs : Fs) (p : String) : Bool :=
  (fs.lookup p).isSome

/-- Observable byte size of a file's content (`os.path.getsize`).  Exact
for raw blobs.  For the two archive classifications only positivity is
ever observed by the code (any tar archive stream contains at least its
fixed framing bytes, and any gzip stream at least its 10-byte header),
so a fixed positive stand-in for the framing bytes is used. -/
def FileContent.byteLen : FileContent → Nat
  | .raw bytes => bytes.length
  | .tarPlain _ => 1024
  | .gzTar _ _ _ => 18

/-- `os.path.getsize` on a node.  A directory's `st_size` is the file
system's directory-entry size, a positive constant (4096 on ext4). -/
def FsNode.size : FsNode → Nat
  | .dir => 4096
  | .file c => c.byteLen

/-- The data bytes `tarfile` reads from a source node when adding it to
an archive.  Exact for raw blobs; for a directory no data is read.  For
a checkpoint that itself happens to be classified as an archive, the
data bytes are not tracked by this model (no claim packs an archive). -/
def FsNode.dataBytes : FsNode → List Nat
  | .dir => []
  | .file (.raw bytes) => bytes
  | .file _ => []

/-- Exception classification for exceptions that escape the Python
functions under study without being one of their documented errors. -/
inductive OsError
  | isADirectory
  deriving DecidableEq

/-- Model of `_tar_has_model_nemo` (utils/prepare_nemo_model.py:26-42).

```python
if not os.path.exists(path):
    return False
if not tarfile.is_tarfile(path):
    return False
try:
    with tarfile.open(path, "r:gz") as t:
        names = t.getnames()
        if "model.nemo" not in names:
            return False
        info = t.getmember("model.nemo")
        if not info.isreg() or info.size <= 0:
            return False
    return True
except Exception:
    return False
```

The `except Exception` handler protects only the `tarfile.open` block.
`tarfile.is_tarfile` runs outside it and catches only `tarfile.TarError`
internally; when `path` names a directory, the underlying
`open(path, "rb")` raises `IsADirectoryError` (an `OSError`), which
propagates out of `_tar_has_model_nemo` — hence the `Except` result.
`t.getmember(name)` returns the last archive member bearing `name`.
An uncompressed tar passes `is_tarfile` but `tarfile.open(path, "r:gz")`
then raises `ReadError` inside the guarded block.  A truncated gzip tar
either fails `is_tarfile` or raises while listing members; both routes
return `False`, which the `truncated` flag models uniformly. -/
def tarHasModelNemo (fs : Fs) (path : String) : Except OsError Bool :=
  match fs.lookup path with
  | none => .ok false
  | some .dir => .error .isADirectory
  | some (.file (.raw _)) => .ok false
  | some (.file (.tarPlain _)) => .ok false
  | some (.file (.gzTar _ entries truncated)) =>
    if truncated then .ok false
    else if ¬ entries.any (fun e => e.info.name == "model.nemo") then .ok false
    else
      match entries.reverse.find? (fun e => e.info.name == "model.nemo") with
      | none => .ok false
      | some info =>
        if ¬ (info.info.etype == .reg) ∨ info.info.size ≤ 0 then .ok false
        else .ok true

/-- Model of `_deterministic_filter` (utils/prepare_nemo_model.py:45-55):
zero the ownership ids, clear the ownership names, force the permission
bits to 0o644 for regular files (`tarinfo.isfile()`) and 0o755 for
everything else, and force the modification time to 0. -/
def deterministicFilter (ti : TarInfo) : TarInfo :=
  { ti with
    uid := 0
    gid := 0
    uname := ""
    gname := ""
    mode := if ti.etype == .reg then 0o644 else 0o755
    mtime := 0 }

/-- The run-time environment of one `prepare_nemo_artifact` invocation:
its arguments, the host facts the packaging step observes (owner ids and
names, source mode and mtime from `os.stat`, and the wall clock read by
`gzip.GzipFile` when writing the stream header), and the outcomes of the
two fallible external effects (the checkpoint fetch, and the tar write). -/
structure PrepEnv where
  localNemoPath : String
  modelName : String
  outTar : String
  uid : Nat
  gid : Nat
  uname : String
  gname : String
  srcMode : Nat
  srcMtime : Nat
  clock : Nat
  fetchSaves : Option (List Nat)
  packFails : Bool

/-- `os.path.basename`. -/
def basename (p : String) : String :=
  String.mk ((p.data.reverse.takeWhile (fun c => c ≠ '/')).reverse)

/-- `os.path.dirname` (POSIX): everything before the last '/', with
trailing slashes stripped unless the result is all slashes. -/
def dirname (p : String) : String :=
  let head := (p.data.reverse.dropWhile (fun c => c ≠ '/')).reverse
  if head.isEmpty then ""
  else if head.all (fun c => c = '/') then String.mk head
  else String.mk ((head.reverse.dropWhile (fun c => c = '/')).reverse)

/-- The FNAME field `gzip.GzipFile._write_gzip_header` stores: the output
file's base name, with a trailing ".gz" stripped (`fname.endswith(".gz")`
is checked on the last three characters). -/
def gzipFname (outPath : String) : String :=
  let b := basename outPath
  if b.data.reverse.take 3 = ['z', 'g', '.'] then
    String.mk (b.data.take (b.data.length - 3))
  else b

/-- The `tarfile.TarFile.gettarinfo` result for the source node of
`tar.add(local_nemo_path, arcname="model.nemo", ...)`: name is the
`arcname`, type/size/mode/owner/mtime come from `os.stat` and the host
account database. -/
def sourceTarInfo (env : PrepEnv) (node : FsNode) : TarInfo :=
  { name := "model.nemo"
    etype := match node with | .dir => .dir | .file _ => .reg
    size := match node with | .dir => 0 | .file c => c.byteLen
    mode := env.srcMode
    uid := env.uid
    gid := env.gid
    uname := env.uname
    gname := env.gname
    mtime := env.srcMtime }

/-- Content written to `out_tar` by
`tarfile.open(out_tar, "w:gz")` + `tar.add(local_nemo_path,
arcname="model.nemo", filter=_deterministic_filter)`
(utils/prepare_nemo_model.py:104-108): a gzip stream whose header MTIME
is the wall clock at the write and whose FNAME derives from `out_tar`,
containing the single filtered member with the source's data bytes. -/
def packedContent (env : PrepEnv) (node : FsNode) : FileContent :=
  .gzTar { mtime := env.clock, fname := gzipFname env.outTar }
    [{ info := deterministicFilter (sourceTarInfo env node), data := node.dataBytes }] false

/-- The tar member list of an archive-classified content (empty
otherwise); used to compare the payload under the gzip header. -/
def archiveEntries : FileContent → List TarEntry
  | .gzTar _ entries _ => entries
  | .tarPlain entries => entries
  | .raw _ => []

/-- `os.makedirs(d, exist_ok=True)` on the single directory `d`:
fails when `d` is the empty string (`FileNotFoundError`) or names an
existing regular file (`FileExistsError` — `exist_ok` only tolerates
directories); otherwise ensures a directory node at `d`.  Creation of
intermediate ancestors is not modelled (no claim observes them). -/
def makedirs (fs : Fs) (d : String) : Except Unit Fs :=
  if d = "" then .error ()
  else
    match fs.lookup d with
    | some (.file _) => .error ()
    | some .dir => .ok fs
    | none => .ok (fs.set d .dir)

/-- The error taxonomy of `prepare_nemo_artifact`: the four documented
failures plus `osError` for exceptions that escape it undeclared. -/
inductive PrepError
  | retrieval
  | missingArtifact
  | packaging
  | verification
  | osError
  deriving DecidableEq

/-- Effect record of one `prepare_nemo_artifact` run: the resulting file
system and how many times each external step actually ran. -/
structure PrepState where
  fs : Fs
  fetchCalls : Nat
  packCalls : Nat
  validateCalls : Nat
  deriving DecidableEq

/-- Steps of `prepare_nemo_artifact` after the download phase
(utils/prepare_nemo_model.py:101-115): the existence/size check on the
checkpoint, the packaging step, and the post-pack verification.

When the tar write raises, the `with` block has already created
`out_tar` and written the gzip header before `tar.add` runs
(`GzipFile.__init__` writes the header immediately), and `TarFile`'s
`__exit__` on an exception closes the stream without removing the file:
a partial, unreadable blob stays at `out_tar` (modelled as the gzip
magic bytes `[31, 139]` of the dangling header). -/
def afterFetch (env : PrepEnv) (fs : Fs) (nFetch : Nat) :
    PrepState × Except PrepError String :=
  match fs.lookup env.localNemoPath with
  | none => (⟨fs, nFetch, 0, 0⟩, .error .missingArtifact)
  | some node =>
    if node.size ≤ 0 then (⟨fs, nFetch, 0, 0⟩, .error .missingArtifact)
    else if env.packFails then
      (⟨fs.set env.outTar (.file (.raw [31, 139])), nFetch, 1, 0⟩, .error .packaging)
    else
      match tarHasModelNemo (fs.set env.outTar (.file (packedContent env node))) env.outTar with
      | .ok true =>
        (⟨fs.set env.outTar (.file (packedContent env node)), nFetch, 1, 1⟩, .ok env.outTar)
      | .ok false =>
        (⟨fs.set env.outTar (.file (packedContent env node)), nFetch, 1, 1⟩, .error .verification)
      | .error _ =>
        (⟨fs.set env.outTar (.file (packedContent env node)), nFetch, 1, 1⟩, .error .osError)

/-- Model of `prepare_nemo_artifact` (utils/prepare_nemo_model.py:58-115):

1. if `out_tar` exists, return it immediately;
2. ensure the parent directories of both paths exist;
3. if the checkpoint is absent, fetch it (`from_pretrained`+`save_to`,
   modelled by `env.fetchSaves`: the bytes the external fetch leaves at
   `local_nemo_path`, or `none` when it raises → `RuntimeError`);
4. check the checkpoint exists with size > 0 (`FileNotFoundError`);
5. pack `out_tar` (failure → `RuntimeError`, partial file left);
6. verify with `_tar_has_model_nemo` (failure → `RuntimeError`);
7. return `out_tar`. -/
def prepareNemoArtifact (env : PrepEnv) (fs0 : Fs) :
    PrepState × Except PrepError String :=
  if fs0.existsPath env.outTar then (⟨fs0, 0, 0, 0⟩, .ok env.outTar)
  else
    match makedirs fs0 (dirname env.localNemoPath) with
    | .error _ => (⟨fs0, 0, 0, 0⟩, .error .osError)
    | .ok fs1 =>
      match makedirs fs1 (dirname env.outTar) with
      | .error _ => (⟨fs1, 0, 0, 0⟩, .error .osError)
      | .ok fs2 =>
        if fs2.existsPath env.localNemoPath then afterFetch env fs2 0
        else
          match env.fetchSaves with
          | none => (⟨fs2, 1, 0, 0⟩, .error .retrieval)
          | some bytes =>
            afterFetch env (fs2.set env.localNemoPath (.file (.raw bytes))) 1

/-- A fixed baseline environment with the source defaults as arguments. -/
def envBase : PrepEnv :=
  { localNemoPath := "artifacts/model.nemo"
    modelName := "nvidia/parakeet-rnnt-0.6b"
    outTar := "artifacts/model.tar.gz"
    uid := 1000
    gid := 1000
    uname := "builder"
    gname := "builder"
    srcMode := 0o600
    srcMtime := 1700000000
    clock := 42
    fetchSaves := some [9, 9]
    packFails := false }


/-! ### Concrete fixtures used by the claim theorems below -/

/-- A 3-byte checkpoint file. -/
def ckptNode : FsNode := .file (.raw [1, 2, 3])

/-- First packaging run: wall clock 0. -/
def envClockA : PrepEnv :=
  { envBase with clock := 0, uid := 1000, gid := 1000, srcMtime := 111 }

/-- A run on a different host account (different uid/gid/names, source
mode and source mtime) but the same wall clock 0. -/
def envClockA' : PrepEnv :=
  { envBase with
    clock := 0
    uid := 2000
    gid := 3000
    uname := "other"
    gname := "og"
    srcMode := 0o777
    srcMtime := 222 }

/-- The same host as `envClockA'` but one second later. -/
def envClockB : PrepEnv := { envClockA' with clock := 1 }

/-- A cached archive file already present at the default output path. -/
def fsCached : Fs := [("artifacts/model.tar.gz", .file (.raw [0]))]

/-- A stale corrupt archive (truncated gzip tar) at the output path. -/
def fsStale : Fs :=
  [("artifacts/model.tar.gz", .file (.gzTar ⟨7, "model.tar"⟩ [] true))]

/-- A checkpoint present at the default path, no archive yet. -/
def fsCkpt : Fs := [("artifacts/model.nemo", .file (.raw [1, 2, 3]))]

/-- Environment whose tar write raises. -/
def envPackFail : PrepEnv := { envBase with packFails := true }

/-- A gzip header for hand-built archive fixtures. -/
def gzHdr : GzipHeader := ⟨0, "model.tar"⟩

/-- A well-formed `model.nemo` member. -/
def goodEntry : TarEntry := ⟨⟨"model.nemo", .reg, 3, 0o644, 0, 0, "", "", 0⟩, [1, 2, 3]⟩

/-- A `model.nemo` member of size zero. -/
def zeroEntry : TarEntry := ⟨⟨"model.nemo", .reg, 0, 0o644, 0, 0, "", "", 0⟩, []⟩

/-- A member with a different name. -/
def otherEntry : TarEntry := ⟨⟨"README", .reg, 2, 0o644, 0, 0, "", "", 0⟩, [5, 5]⟩

/-- Valid archive fixture. -/
def fsGood : Fs := [("a.tar.gz", .file (.gzTar gzHdr [goodEntry] false))]

/-- Truncated archive fixture. -/
def fsTrunc : Fs := [("a.tar.gz", .file (.gzTar gzHdr [goodEntry] true))]

/-- Archive fixture missing the canonical entry. -/
def fsMiss : Fs := [("a.tar.gz", .file (.gzTar gzHdr [otherEntry] false))]

/-- Archive fixture whose canonical entry has size zero. -/
def fsZero : Fs := [("a.tar.gz", .file (.gzTar gzHdr [zeroEntry] false))]

/-- A directory node sitting at the probed path. -/
def fsDir : Fs := [("artifacts/model.tar.gz", .dir)]

/-! ### Claim theorems -/

/-- C1: packing byte-identical input twice does NOT always produce
byte-identical archives.  The tar payload is deterministic — the filtered
member is identical across hosts (different uid/gid/owner names, source
mode and source mtime give the same entry) — but the gzip stream header
written by `gzip.GzipFile` embeds the wall clock (`int(time.time())`) in
its MTIME field, so two runs of `pack` at clocks 0 and 1 on the same
3-byte checkpoint produce archives that differ at stream bytes 4..7,
contradicting independence of the host clock.  The code's own module
docstring promises "Deterministic packaging (mtime/uid/gid/perms) for
reproducible builds", so this is a defect of the code, not of the spec. -/
theorem c1_pack_clock_dependent :
    packedContent envClockA ckptNode = packedContent envClockA' ckptNode
    ∧ archiveEntries (packedContent envClockA ckptNode)
        = archiveEntries (packedContent envClockB ckptNode)
    ∧ packedContent envClockA ckptNode ≠ packedContent envClockB ckptNode := by
  refine ⟨by decide, by decide, by decide⟩

/-- C2 counterexample: when a stale, corrupt archive already sits at the
output path, `prepare_nemo_artifact` returns that path unchanged and
unvalidated, yet the returned archive fails `_tar_has_model_nemo` — so
not every successful return refers to an archive passing the Validator. -/
theorem c2_cached_archive_not_validated_cex :
    prepareNemoArtifact envBase fsStale
      = (⟨fsStale, 0, 0, 0⟩, .ok "artifacts/model.tar.gz")
    ∧ tarHasModelNemo fsStale "artifacts/model.tar.gz" = .ok false := by
  refine ⟨by decide, by decide⟩

/-- Helper: whatever state `afterFetch` starts from, a successful result
carries the output path and a file system on which the Validator
accepts that path (the post-pack verification gate). -/
theorem afterFetch_ok_validated (env : PrepEnv) (fs : Fs) (n : Nat)
    (st : PrepState) (p : String) (h : afterFetch env fs n = (st, .ok p)) :
    p = env.outTar ∧ tarHasModelNemo st.fs p = .ok true := by
  unfold afterFetch at h
  split at h
  · simp at h
  · split at h
    · simp at h
    · split at h
      · simp at h
      · split at h
        · rename_i hv
          cases h
          exact ⟨rfl, hv⟩
        · simp at h
        · simp at h

/-- C2 (amended): on every run in which the output archive did NOT
already exist, a successful return yields the output path and the
archive then stored there passes `_tar_has_model_nemo`; only the
early-return cache path can hand back an unvalidated archive. -/
theorem c2_fresh_build_always_validated :
    ∀ (env : PrepEnv) (fs0 : Fs) (st : PrepState) (p : String),
      fs0.existsPath env.outTar = false →
      prepareNemoArtifact env fs0 = (st, .ok p) →
      p = env.outTar ∧ tarHasModelNemo st.fs p = .ok true := by
  intro env fs0 st p h0 h
  unfold prepareNemoArtifact at h
  rw [h0] at h
  simp only [Bool.false_eq_true, if_false] at h
  split at h
  · simp at h
  · split at h
    · simp at h
    · split at h
      · exact afterFetch_ok_validated _ _ _ _ _ h
      · split at h
        · simp at h
        · exact afterFetch_ok_validated _ _ _ _ _ h

/-- C2 witness: a fresh run from a file system holding only the
checkpoint succeeds and the archive it returns passes the Validator. -/
theorem c2_fresh_build_always_validated_witness :
    "artifacts/model.tar.gz" = envBase.outTar
    ∧ tarHasModelNemo (prepareNemoArtifact envBase fsCkpt).1.fs
        "artifacts/model.tar.gz" = .ok true :=
  c2_fresh_build_always_validated envBase fsCkpt
    (prepareNemoArtifact envBase fsCkpt).1 "artifacts/model.tar.gz"
    (by decide) (by decide)

/-- C3 counterexample: when the probed path names a directory, the
existence check passes but `tarfile.is_tarfile` — which runs OUTSIDE the
`try` block and internally catches only `tarfile.TarError` — opens the
path and raises `IsADirectoryError`, which propagates to the caller.
The Validator is therefore not total and an exception does escape. -/
theorem c3_directory_path_raises_cex :
    tarHasModelNemo fsDir "artifacts/model.tar.gz" = .error .isADirectory := by
  decide

/-- C3 (amended): the Validator fails closed on every path that does not
name a directory — for a nonexistent path and for every regular file
(unreadable archive, truncated stream, missing or malformed entry) it
returns a Boolean, never propagating an exception; only a path naming a
directory makes the out-of-handler format probe raise. -/
theorem c3_fails_closed_on_nondirectory :
    ∀ (fs : Fs) (path : String), fs.lookup path ≠ some .dir →
      ∃ b, tarHasModelNemo fs path = .ok b := by
  intro fs path h
  unfold tarHasModelNemo
  match hl : fs.lookup path with
  | none => exact ⟨false, rfl⟩
  | some .dir => exact absurd hl h
  | some (.file (.raw _)) => exact ⟨false, rfl⟩
  | some (.file (.tarPlain _)) => exact ⟨false, rfl⟩
  | some (.file (.gzTar hdr entries t)) =>
    dsimp only
    split
    · exact ⟨false, rfl⟩
    · split
      · exact ⟨false, rfl⟩
      · split
        · exact ⟨false, rfl⟩
        · split
          · exact ⟨false, rfl⟩
          · exact ⟨true, rfl⟩

/-- C3 witness: the Validator returns a Boolean (`false`) on a file
system where the probed path is absent. -/
theorem c3_fails_closed_on_nondirectory_witness :
    ∃ b, tarHasModelNemo [] "artifacts/model.tar.gz" = .ok b :=
  c3_fails_closed_on_nondirectory [] "artifacts/model.tar.gz" (by decide)

/-- C4: the Validator returns `true` exactly when the path holds a
readable (non-truncated) gzip-compressed tar archive among whose members
the name "model.nemo" occurs, and the last member bearing that name — the
one `t.getmember` returns — is a regular file of size strictly greater
than zero.  In particular (the three negative cases) a truncated archive,
an archive without the canonical entry, and an archive whose canonical
entry has size zero each yield `false` (not an exception). -/
theorem c4_validator_characterization :
    ∀ (fs : Fs) (path : String),
      (tarHasModelNemo fs path = .ok true ↔
        ∃ hdr entries e,
          fs.lookup path = some (.file (.gzTar hdr entries false))
          ∧ entries.reverse.find? (fun x => x.info.name == "model.nemo") = some e
          ∧ e.info.etype = .reg ∧ 0 < e.info.size)
      ∧ (∀ hdr entries,
          fs.lookup path = some (.file (.gzTar hdr entries true)) →
          tarHasModelNemo fs path = .ok false)
      ∧ (∀ hdr entries,
          fs.lookup path = some (.file (.gzTar hdr entries false)) →
          entries.all (fun x => ! (x.info.name == "model.nemo")) →
          tarHasModelNemo fs path = .ok false)
      ∧ (∀ hdr entries e,
          fs.lookup path = some (.file (.gzTar hdr entries false)) →
          entries.reverse.find? (fun x => x.info.name == "model.nemo") = some e →
          e.info.size = 0 →
          tarHasModelNemo fs path = .ok false) := by
  intro fs path
  refine ⟨⟨?_, ?_⟩, ?_, ?_, ?_⟩
  · intro h
    unfold tarHasModelNemo at h
    cases hl : fs.lookup path with
    | none => rw [hl] at h; simp at h
    | some node =>
      rw [hl] at h
      cases node with
      | dir => simp at h
      | file c =>
        cases c with
        | raw bs => simp at h
        | tarPlain es => simp at h
        | gzTar hdr entries truncated =>
          cases truncated with
          | true => simp at h
          | false =>
            dsimp only at h
            rw [if_neg (by simp)] at h
            by_cases hany : entries.any (fun e => e.info.name == "model.nemo") = true
            · rw [if_neg (by simp [hany])] at h
              cases hfind : entries.reverse.find? (fun e => e.info.name == "model.nemo") with
              | none => rw [hfind] at h; simp at h
              | some e =>
                rw [hfind] at h
                dsimp only at h
                by_cases hc : (¬ (e.info.etype == EntryType.reg) = true ∨ e.info.size ≤ 0)
                · rw [if_pos hc] at h; simp at h
                · push_neg at hc
                  exact ⟨hdr, entries, e, rfl, hfind, by simpa using hc.1, by omega⟩
            · rw [if_pos (by simp [hany])] at h; simp at h
  · rintro ⟨hdr, entries, e, hl, hfind, hreg, hpos⟩
    have hmem : entries.any (fun x => x.info.name == "model.nemo") = true := by
      have h1 := List.find?_some hfind
      have hme := List.mem_of_find?_eq_some hfind
      rw [List.mem_reverse] at hme
      exact List.any_eq_true.mpr ⟨e, hme, h1⟩
    unfold tarHasModelNemo
    rw [hl]
    dsimp only
    rw [if_neg (by simp), if_neg (by simp [hmem]), hfind]
    dsimp only
    rw [if_neg (not_or.mpr ⟨by simp [hreg], by omega⟩)]
  · intro hdr entries hl
    unfold tarHasModelNemo
    rw [hl]
    dsimp only
    rw [if_pos rfl]
  · intro hdr entries hl hall
    have hany : entries.any (fun x => x.info.name == "model.nemo") = false := by
      rw [← Bool.not_eq_true, List.any_eq_true]
      rintro ⟨x, hx, hn⟩
      have hx2 := List.all_eq_true.mp hall x hx
      simp only [Bool.not_eq_true'] at hx2
      rw [hx2] at hn
      exact Bool.false_ne_true hn
    unfold tarHasModelNemo
    rw [hl]
    dsimp only
    rw [if_neg (by simp), if_pos (by simp [hany])]
  · intro hdr entries e hl hfind hz
    have hmem : entries.any (fun x => x.info.name == "model.nemo") = true := by
      have h1 := List.find?_some hfind
      have hme := List.mem_of_find?_eq_some hfind
      rw [List.mem_reverse] at hme
      exact List.any_eq_true.mpr ⟨e, hme, h1⟩
    unfold tarHasModelNemo
    rw [hl]
    dsimp only
    rw [if_neg (by simp), if_neg (by simp [hmem]), hfind]
    dsimp only
    rw [if_pos (Or.inr (by omega))]

/-- C4 witness: the characterization applied to four concrete archives —
a valid one (`true`), a truncated one, one missing `model.nemo`, and one
whose `model.nemo` has size zero (each `false`). -/
theorem c4_validator_characterization_witness :
    tarHasModelNemo fsGood "a.tar.gz" = .ok true
    ∧ tarHasModelNemo fsTrunc "a.tar.gz" = .ok false
    ∧ tarHasModelNemo fsMiss "a.tar.gz" = .ok false
    ∧ tarHasModelNemo fsZero "a.tar.gz" = .ok false :=
  ⟨(c4_validator_characterization fsGood "a.tar.gz").1.mpr
      ⟨gzHdr, [goodEntry], goodEntry, by decide, by decide, by decide, by decide⟩,
   (c4_validator_characterization fsTrunc "a.tar.gz").2.1 gzHdr [goodEntry] (by decide),
   (c4_validator_characterization fsMiss "a.tar.gz").2.2.1 gzHdr [otherEntry]
      (by decide) (by decide),
   (c4_validator_characterization fsZero "a.tar.gz").2.2.2 gzHdr [zeroEntry] zeroEntry
      (by decide) (by decide) (by decide)⟩

/-- C5 counterexample: starting from a file system holding only the
checkpoint (no file at the destination), a run whose tar write raises
fails with the packaging error — but a file IS now visible at the
destination path: `tarfile.open(out_tar, "w:gz")` creates the file and
writes the gzip header before `tar.add` runs, and an exception in the
`with` block closes the stream without removing the file.  The
file-system state at the destination is not "as if the pack had not been
attempted". -/
theorem c5_partial_file_left_cex :
    (prepareNemoArtifact envPackFail fsCkpt).2 = .error .packaging
    ∧ fsCkpt.existsPath "artifacts/model.tar.gz" = false
    ∧ (prepareNemoArtifact envPackFail fsCkpt).1.fs.existsPath
        "artifacts/model.tar.gz" = true := by
  refine ⟨by decide, by decide, by decide⟩

/-- C5 (amended): when the tar write raises, `prepare_nemo_artifact`
fails with the packaging error and returns no path; the partially
written blob remains visible at the destination, but it never passes the
Validator (the destination is invalid until verified, and the packaging
failure is reported to the caller). -/
theorem c5_packaging_failure_leaves_invalid_partial :
    ∀ (env : PrepEnv) (fs0 : Fs) (st : PrepState),
      prepareNemoArtifact env fs0 = (st, .error .packaging) →
      st.fs.lookup env.outTar = some (.file (.raw [31, 139]))
      ∧ tarHasModelNemo st.fs env.outTar = .ok false := by
  intro env fs0 st h
  have hset : ∀ fs : Fs,
      (fs.set env.outTar (.file (.raw [31, 139]))).lookup env.outTar
        = some (.file (.raw [31, 139])) := by
    intro fs
    show List.lookup env.outTar ((env.outTar, _) :: _) = _
    simp [List.lookup]
  have key : ∀ (fs : Fs) (n : Nat), afterFetch env fs n = (st, .error .packaging) →
      st.fs.lookup env.outTar = some (.file (.raw [31, 139]))
      ∧ tarHasModelNemo st.fs env.outTar = .ok false := by
    intro fs n haf
    unfold afterFetch at haf
    split at haf
    · simp at haf
    · split at haf
      · simp at haf
      · split at haf
        · cases haf
          refine ⟨hset fs, ?_⟩
          unfold tarHasModelNemo
          rw [hset fs]
        · split at haf
          · simp at haf
          · simp at haf
          · simp at haf
  unfold prepareNemoArtifact at h
  split at h
  · simp at h
  · split at h
    · simp at h
    · split at h
      · simp at h
      · split at h
        · exact key _ _ h
        · split at h
          · simp at h
          · exact key _ _ h

/-- C5 witness: the amended statement at the concrete failing run. -/
theorem c5_packaging_failure_leaves_invalid_partial_witness :
    (prepareNemoArtifact envPackFail fsCkpt).1.fs.lookup "artifacts/model.tar.gz"
      = some (.file (.raw [31, 139]))
    ∧ tarHasModelNemo (prepareNemoArtifact envPackFail fsCkpt).1.fs
        "artifacts/model.tar.gz" = .ok false :=
  c5_packaging_failure_leaves_invalid_partial envPackFail fsCkpt
    (prepareNemoArtifact envPackFail fsCkpt).1 (by decide)

/-- C6: whenever the output archive path already exists (whatever node
sits there), `prepare_nemo_artifact` returns that path immediately: the
file system is returned unchanged, the fetch step never runs, the
packaging step never runs, and the Validator is never invoked. -/
theorem c6_early_return_on_existing_archive :
    ∀ (env : PrepEnv) (fs0 : Fs),
      fs0.existsPath env.outTar = true →
      prepareNemoArtifact env fs0 = (⟨fs0, 0, 0, 0⟩, .ok env.outTar) := by
  intro env fs0 h
  unfold prepareNemoArtifact
  rw [h]
  simp

/-- C6 witness: the early return on a concrete cached file system. -/
theorem c6_early_return_on_existing_archive_witness :
    prepareNemoArtifact envBase fsCached
      = (⟨fsCached, 0, 0, 0⟩, .ok "artifacts/model.tar.gz") :=
  c6_early_return_on_existing_archive envBase fsCached (by decide)

/-!
Part 2 models `model/inference.py`: the strict request decoder
`input_fn` and the response encoder `output_fn`.

Modelling conventions:
* `json.loads` is modelled by handing `input_fn` the parse outcome: a
  `ReqBody` that is either `malformed` (the parser raised, carrying the
  parser's message) or `parsed v` with `v` the resulting JSON value.
  Parsed objects carry their field list; `json.loads` collapses
  duplicate keys (last occurrence wins), so parsed objects have unique
  keys and association-list lookup is exact.
* `base64.b64decode(s, validate=True)` is implemented concretely
  (`b64decodeStrict`): ASCII check, the validate regex (data alphabet
  followed by at most two '=' characters), and `a2b_base64`'s
  length-multiple-of-4 padding rule.
* `soundfile.read(..., dtype="float32", always_2d=True)` is an external
  library call and is passed in as a function `SfRead` from the decoded
  bytes to either an error message or the decoded audio: sample rate,
  channel count (the second component of the `(frames, channels)`
  shape), and the frame rows.  Sample values are carried opaquely as
  integers — the handler performs no arithmetic on them, only shape
  manipulation (`audio[:, 0]` takes each row's first value).
* Python exceptions raised by `input_fn` are `PyErr.valueError` with the
  exact message from the source; `PyErr.typeError` models the uncaught
  `TypeError`s that the interpreter raises inside `input_fn` when the
  parsed payload is not a dict (membership test / subscription).
-/

/-- JSON values as produced by `json.loads`. -/
inductive JsonVal
  | str (s : String)
  | num (n : Int)
  | bool (b : Bool)
  | null
  | arr (xs : List JsonVal)
  | obj (fields : List (String × JsonVal))

/-- Outcome of `json.loads(request_body)`. -/
inductive ReqBody
  | malformed (msg : String)
  | parsed (v : JsonVal)

/-- Python exceptions observable from `input_fn`: `ValueError` with its
message (every documented rejection), or `TypeError` (uncaught). -/
inductive PyErr
  | valueError (msg : String)
  | typeError (msg : String)
  deriving DecidableEq

/-- Whether an exception is one of the handler's own `ValueError`
rejections (as opposed to an interpreter-raised error). -/
def PyErr.isValueError : PyErr → Bool
  | .valueError _ => true
  | .typeError _ => false

/-- Python `==` between a string and a JSON value (used by `in` on a
list): only a string member can compare equal. -/
def isStrEq (k : String) : JsonVal → Bool
  | .str s => s == k
  | _ => false

/-- Whether `needle` occurs as a contiguous run inside `hay` (Python
substring membership `needle in hay` for strings). -/
def listContainsRun (needle : List Char) : List Char → Bool
  | [] => needle.isEmpty
  | c :: rest => needle.isPrefixOf (c :: rest) || listContainsRun needle rest

/-- Python `key in payload` on a parsed JSON value: key membership on a
dict, element equality on a list, substring on a string, and `TypeError:
argument of type ... is not iterable` on numbers, booleans and `None`. -/
def pyContains (key : String) : JsonVal → Except PyErr Bool
  | .obj fields => .ok (List.lookup key fields).isSome
  | .arr xs => .ok (xs.any (isStrEq key))
  | .str s => .ok (listContainsRun key.data s.data)
  | _ => .error (.typeError "argument of type is not iterable")

/-- Python `payload[key]` on a parsed JSON value: dict subscription, and
the interpreter `TypeError`s on every other shape. -/
def pyIndex (key : String) : JsonVal → Except PyErr JsonVal
  | .obj fields =>
    match List.lookup key fields with
    | some v => .ok v
    | none => .error (.typeError "KeyError")
  | .str _ => .error (.typeError "string indices must be integers")
  | .arr _ => .error (.typeError "list indices must be integers or slices, not str")
  | _ => .error (.typeError "object is not subscriptable")

/-- Base64 data alphabet `A-Za-z0-9+/`. -/
def isB64Char (c : Char) : Bool :=
  ('A' ≤ c && c ≤ 'Z') || ('a' ≤ c && c ≤ 'z') || ('0' ≤ c && c ≤ '9')
    || c == '+' || c == '/'

/-- Value of a base64 data character (0 on non-alphabet input, which the
callers exclude beforehand). -/
def b64Val (c : Char) : Nat :=
  if 'A' ≤ c && c ≤ 'Z' then c.toNat - 'A'.toNat
  else if 'a' ≤ c && c ≤ 'z' then c.toNat - 'a'.toNat + 26
  else if '0' ≤ c && c ≤ '9' then c.toNat - '0'.toNat + 52
  else if c == '+' then 62
  else if c == '/' then 63
  else 0

/-- The `validate=True` regex of `base64.b64decode`:
`fullmatch b"[A-Za-z0-9+/]*={0,2}"` — data characters followed by at most
two '=' characters. -/
def validB64Shape (cs : List Char) : Bool :=
  let body := cs.takeWhile (fun c => c ≠ '=')
  let pad := cs.drop body.length
  body.all isB64Char && pad.all (fun c => c = '=') && pad.length ≤ 2

/-- Quad-by-quad base64 decoding as `binascii.a2b_base64` performs it on
regex-valid input: a quad of data characters yields three bytes, a final
quad with one or two '=' yields two bytes or one, anything whose length
is not a multiple of four raises `Invalid padding`. -/
def b64Quads : List Char → Except String (List Nat)
  | [] => .ok []
  | [a, b, '=', '='] => .ok [(b64Val a * 262144 + b64Val b * 4096) / 65536]
  | [a, b, c, '='] =>
    .ok [(b64Val a * 262144 + b64Val b * 4096 + b64Val c * 64) / 65536,
         (b64Val a * 262144 + b64Val b * 4096 + b64Val c * 64) / 256 % 256]
  | a :: b :: c :: d :: rest =>
    if a = '=' || b = '=' || c = '=' || d = '=' then .error "Invalid padding"
    else
      match b64Quads rest with
      | .error e => .error e
      | .ok tail =>
        .ok ([(b64Val a * 262144 + b64Val b * 4096 + b64Val c * 64 + b64Val d) / 65536,
              (b64Val a * 262144 + b64Val b * 4096 + b64Val c * 64 + b64Val d) / 256 % 256,
              (b64Val a * 262144 + b64Val b * 4096 + b64Val c * 64 + b64Val d) % 256]
          ++ tail)
  | _ => .error "Invalid padding"

/-- Model of `base64.b64decode(s, validate=True)`: non-ASCII input
raises (`string argument should contain only ASCII characters`), input
failing the validate regex raises `Non-base64 digit found`, and the
remaining quad decoding enforces `a2b_base64`'s padding rule. -/
def b64decodeStrict (s : String) : Except String (List Nat) :=
  if ¬ s.data.all (fun c => c.toNat < 128) then
    .error "string argument should contain only ASCII characters"
  else if ¬ validB64Shape s.data then .error "Non-base64 digit found"
  else b64Quads s.data

/-- The decoded audio `soundfile.read(..., always_2d=True)` returns:
sample rate, channel count (second component of the `(frames, channels)`
shape), and the frame rows (one list of per-channel sample values per
frame; values carried opaquely as integers). -/
structure AudioData where
  sr : Nat
  channels : Nat
  rows : List (List Int)

/-- The external audio decoder (`soundfile.read` over an in-memory
stream): either an error message (undecodable container) or the decoded
audio. -/
def SfRead : Type := List Nat → Except String AudioData

/-- `SR_REQUIRED` (model/inference.py:35). -/
def SR_REQUIRED : Nat := 16000

/-- Model of `input_fn` (model/inference.py:70-116), parametrized by the
external audio decoder.  Mirrors the source's order of checks:

1. `content_type != "application/json"` → `ValueError`;
2. `json.loads` failure → `ValueError("Invalid JSON: ...")`;
3. `"audio_b64" not in payload` → `ValueError` (on a non-container
   payload the membership test itself raises `TypeError`);
4. `not isinstance(b64, str) or not b64` → `ValueError` (wrong type and
   empty string share this branch);
5. `base64.b64decode(b64, validate=True)` failure → `ValueError`;
6. `sf.read` failure → `ValueError`;
7. `sr != SR_REQUIRED` → `ValueError`;
8. `audio.shape[1] != 1` → `ValueError`;
9. flatten `audio[:, 0]`, then `audio.size == 0` → `ValueError`;
else return the flat sample buffer. -/
def input_fn (sfRead : SfRead) (request_body : ReqBody)
    (content_type : String) : Except PyErr (List Int) :=
  if content_type ≠ "application/json" then
    .error (.valueError "Unsupported content type. Only \x27application/json\x27 is accepted.")
  else
    match request_body with
    | .malformed msg => .error (.valueError ("Invalid JSON: " ++ msg))
    | .parsed payload =>
      match pyContains "audio_b64" payload with
      | .error e => .error e
      | .ok false =>
        .error (.valueError "Missing required field \x27audio_b64\x27 in JSON payload.")
      | .ok true =>
        match pyIndex "audio_b64" payload with
        | .error e => .error e
        | .ok b64v =>
          match b64v with
          | .str s =>
            if s = "" then
              .error (.valueError "\x27audio_b64\x27 must be a non-empty base64 string.")
            else
              match b64decodeStrict s with
              | .error em =>
                .error (.valueError ("Invalid base64 in \x27audio_b64\x27: " ++ em))
              | .ok wavBytes =>
                match sfRead wavBytes with
                | .error em => .error (.valueError ("Failed to decode WAV: " ++ em))
                | .ok audio =>
                  if audio.sr ≠ SR_REQUIRED then
                    .error (.valueError ("Expected sample rate " ++ toString SR_REQUIRED
                      ++ " Hz, but received " ++ toString audio.sr ++ " Hz."))
                  else if audio.channels ≠ 1 then
                    .error (.valueError "Expected mono WAV (1 channel).")
                  else
                    if (audio.rows.map (fun r => r.headD 0)).length = 0 then
                      .error (.valueError "Decoded audio is empty.")
                    else .ok (audio.rows.map (fun r => r.headD 0))
          | _ =>
            .error (.valueError "\x27audio_b64\x27 must be a non-empty base64 string.")

/-- The spec's error taxonomy for the Request Decoder (spec §4.4/§7),
one distinct kind per validation step; kinds whose source exception
embeds an underlying cause carry that detail. -/
inductive DecodeError
  | unsupportedContentType
  | malformedPayload (detail : String)
  | missingField
  | invalidFieldType
  | invalidEncoding (detail : String)
  | undecodableAudio (detail : String)
  | sampleRateMismatch (actual : Nat)
  | channelCountMismatch
  | emptyAudio
  deriving DecidableEq

/-- Spec-side definition, following the words of spec §4.4: the
validation sequence `decode(requestBody, contentType)`, each step
short-circuiting with its distinct error kind — content type, payload
parse, field presence, field type (a string field holding base64 audio;
the handler's documented field rule also demands it be non-empty, cf.
the empty-string claim), strict base64, audio container decode, sample
rate exactly 16000, exactly one channel, non-empty sample sequence — and
on success the untouched flat sample buffer (no resampling, downmixing
or padding). -/
def decodeSpec (sfRead : SfRead) (request_body : ReqBody)
    (content_type : String) : Except DecodeError (List Int) :=
  if content_type ≠ "application/json" then .error .unsupportedContentType
  else
    match request_body with
    | .malformed msg => .error (.malformedPayload msg)
    | .parsed payload =>
      match payload with
      | .obj fields =>
        match List.lookup "audio_b64" fields with
        | none => .error .missingField
        | some (.str s) =>
          if s = "" then .error .invalidFieldType
          else
            match b64decodeStrict s with
            | .error em => .error (.invalidEncoding em)
            | .ok wavBytes =>
              match sfRead wavBytes with
              | .error em => .error (.undecodableAudio em)
              | .ok audio =>
                if audio.sr ≠ 16000 then .error (.sampleRateMismatch audio.sr)
                else if audio.channels ≠ 1 then .error .channelCountMismatch
                else if (audio.rows.map (fun r => r.headD 0)).length = 0 then
                  .error .emptyAudio
                else .ok (audio.rows.map (fun r => r.headD 0))
        | some _ => .error .invalidFieldType
      | _ => .error (.malformedPayload "payload is not a JSON object")

/-- The correspondence between the spec's error kinds and the exact
exceptions `input_fn` raises: each distinct kind maps to a distinct
`ValueError`. -/
def kindToErr : DecodeError → PyErr
  | .unsupportedContentType =>
    .valueError "Unsupported content type. Only \x27application/json\x27 is accepted."
  | .malformedPayload d => .valueError ("Invalid JSON: " ++ d)
  | .missingField =>
    .valueError "Missing required field \x27audio_b64\x27 in JSON payload."
  | .invalidFieldType =>
    .valueError "\x27audio_b64\x27 must be a non-empty base64 string."
  | .invalidEncoding d =>
    .valueError ("Invalid base64 in \x27audio_b64\x27: " ++ d)
  | .undecodableAudio d => .valueError ("Failed to decode WAV: " ++ d)
  | .sampleRateMismatch a =>
    .valueError ("Expected sample rate " ++ toString SR_REQUIRED
      ++ " Hz, but received " ++ toString a ++ " Hz.")
  | .channelCountMismatch => .valueError "Expected mono WAV (1 channel)."
  | .emptyAudio => .valueError "Decoded audio is empty."

/-- One canonical exception per error kind, used to state that the nine
kinds are pairwise distinct as raised exceptions. -/
def canonicalKindErrs : List PyErr :=
  [kindToErr .unsupportedContentType,
   kindToErr (.malformedPayload "detail"),
   kindToErr .missingField,
   kindToErr .invalidFieldType,
   kindToErr (.invalidEncoding "Invalid padding"),
   kindToErr (.undecodableAudio "detail"),
   kindToErr (.sampleRateMismatch 8000),
   kindToErr .channelCountMismatch,
   kindToErr .emptyAudio]

/-- A request body that parses either to nothing (the parser raised) or
to a JSON object — the payload shapes for which the handler's own
rejection taxonomy is exhaustive. -/
def objectLike (body : ReqBody) : Prop :=
  (∃ m, body = .malformed m) ∨ (∃ fields, body = .parsed (.obj fields))

/-- A concrete stub audio decoder: bytes [0,0,0] decode to a 16000 Hz
mono container with two frames; everything else is undecodable. -/
def sfReadStub : SfRead := fun bytes =>
  if bytes = [0, 0, 0] then .ok ⟨16000, 1, [[7], [8]]⟩
  else .error "Format not recognised."

/-- C7 counterexample: a request whose body is valid JSON but not an
object — the number `5` — reaches the field-membership test
`"audio_b64" not in payload`, which raises an uncaught `TypeError`
(`argument of type \x27int\x27 is not iterable`): the missing-field step
fails, but not with any of the enumerated rejection kinds (all of which
are `ValueError`s). -/
theorem c7_nonobject_payload_typeerror_cex :
    input_fn sfReadStub (.parsed (.num 5)) "application/json"
      = .error (.typeError "argument of type is not iterable")
    ∧ PyErr.isValueError (.typeError "argument of type is not iterable") = false := by
  exact ⟨rfl, rfl⟩

/-- C7 (amended): for every request whose body fails to parse or parses
to a JSON object, `input_fn` equals the spec's ordered validation
sequence under the kind-to-exception correspondence `kindToErr` — the
steps run in the specified order, each short-circuiting with its own
exception (the nine kinds map to pairwise distinct exceptions), the
empty-string field value being rejected at the field-validation step,
and a success returning the decoded sample rows' first-channel values
untouched (no resampling, downmixing or padding).  Bodies parsing to a
non-object JSON value are excluded: there the membership test raises an
uncaught `TypeError` instead of the missing-field rejection. -/
theorem c7_ordered_validation_refinement :
    ∀ (sfRead : SfRead) (body : ReqBody) (ct : String),
      objectLike body →
      input_fn sfRead body ct = (decodeSpec sfRead body ct).mapError kindToErr
      ∧ canonicalKindErrs.Pairwise (fun a b => a ≠ b) := by
  intro sfRead body ct h
  refine ⟨?_, by decide⟩
  rcases h with ⟨m, rfl⟩ | ⟨fields, rfl⟩
  · unfold input_fn decodeSpec
    by_cases hct : ct = "application/json"
    · rw [if_neg (by simp [hct]), if_neg (by simp [hct])]
      rfl
    · rw [if_pos hct, if_pos hct]
      rfl
  · unfold input_fn decodeSpec
    dsimp only [pyContains, pyIndex]
    by_cases hct : ct = "application/json"
    · rw [if_neg (by simp [hct]), if_neg (by simp [hct])]
      cases hl : List.lookup "audio_b64" fields with
      | none => rfl
      | some v =>
        cases v with
        | num n => rfl
        | bool b => rfl
        | null => rfl
        | arr xs => rfl
        | obj fields2 => rfl
        | str s =>
          show (if s = "" then _ else _) = Except.mapError kindToErr (if s = "" then _ else _)
          by_cases hs : s = ""
          · rw [if_pos hs, if_pos hs]
            rfl
          · rw [if_neg hs, if_neg hs]
            cases hb : b64decodeStrict s with
            | error em => rfl
            | ok wavBytes =>
              dsimp only
              cases hsf : sfRead wavBytes with
              | error em => rfl
              | ok audio =>
                dsimp only
                simp only [SR_REQUIRED]
                by_cases hsr : audio.sr = 16000
                · have h1 : ¬ (audio.sr ≠ 16000) := by simp [hsr]
                  rw [if_neg h1, if_neg h1]
                  by_cases hch : audio.channels = 1
                  · have h2 : ¬ (audio.channels ≠ 1) := by simp [hch]
                    rw [if_neg h2, if_neg h2]
                    by_cases hlen : (audio.rows.map (fun r => r.headD 0)).length = 0
                    · rw [if_pos hlen, if_pos hlen]
                      rfl
                    · rw [if_neg hlen, if_neg hlen]
                      rfl
                  · rw [if_pos hch, if_pos hch]
                    rfl
                · rw [if_pos hsr, if_pos hsr]
                  rfl
    · rw [if_pos hct, if_pos hct]
      rfl

/-- C7 witness: the refinement at a concrete object payload (an empty
JSON object under the JSON content type). -/
theorem c7_ordered_validation_refinement_witness :
    input_fn sfReadStub (.parsed (.obj [])) "application/json"
      = (decodeSpec sfReadStub (.parsed (.obj [])) "application/json").mapError kindToErr
    ∧ canonicalKindErrs.Pairwise (fun a b => a ≠ b) :=
  c7_ordered_validation_refinement sfReadStub (.parsed (.obj [])) "application/json"
    (Or.inr ⟨[], rfl⟩)

/-- C8: for every request carrying (under the JSON content type, in the
`audio_b64` field) a non-empty strictly-base64 string whose bytes the
audio decoder accepts as a 16000 Hz mono container with `n > 0` frames,
`input_fn` succeeds and returns the flat (one-dimensional) buffer of the
rows' first-channel samples, of length exactly `n`.  (The buffer holds
the `dtype="float32"` sample values; the model carries them opaquely.) -/
theorem c8_valid_wav_roundtrip_length :
    ∀ (sfRead : SfRead) (fields : List (String × JsonVal)) (s : String)
      (wavBytes : List Nat) (audio : AudioData) (n : Nat),
      List.lookup "audio_b64" fields = some (.str s) →
      s ≠ "" →
      b64decodeStrict s = .ok wavBytes →
      sfRead wavBytes = .ok audio →
      audio.sr = 16000 →
      audio.channels = 1 →
      audio.rows.length = n →
      0 < n →
      input_fn sfRead (.parsed (.obj fields)) "application/json"
        = .ok (audio.rows.map (fun r => r.headD 0))
      ∧ (audio.rows.map (fun r => r.headD 0)).length = n := by
  intro sfRead fields s wavBytes audio n hl hs hb hsf hsr hch hn hpos
  have hlen : ¬ ((audio.rows.map (fun r => r.headD 0)).length = 0) := by
    rw [List.length_map, hn]
    omega
  refine ⟨?_, by rw [List.length_map, hn]⟩
  unfold input_fn
  dsimp only [pyContains, pyIndex]
  rw [if_neg (by simp), hl]
  dsimp only
  rw [if_neg hs, hb]
  dsimp only
  rw [hsf]
  dsimp only
  simp only [SR_REQUIRED]
  have h1 : ¬ (audio.sr ≠ 16000) := by simp [hsr]
  have h2 : ¬ (audio.channels ≠ 1) := by simp [hch]
  rw [if_neg h1, if_neg h2, if_neg hlen]
  rfl

/-- C8 witness: the end-to-end success on a concrete payload — the
base64 string "AAAA" decodes to bytes [0,0,0], which the stub decoder
reads as a 16000 Hz mono container with 2 frames; the returned buffer is
the 2 first-channel samples. -/
theorem c8_valid_wav_roundtrip_length_witness :
    input_fn sfReadStub (.parsed (.obj [("audio_b64", .str "AAAA")])) "application/json"
      = .ok [7, 8]
    ∧ ([[7], [8]].map (fun r : List Int => r.headD 0)).length = 2 :=
  c8_valid_wav_roundtrip_length sfReadStub [("audio_b64", .str "AAAA")] "AAAA"
    [0, 0, 0] ⟨16000, 1, [[7], [8]]⟩ 2 rfl (by decide) rfl rfl rfl rfl rfl (by decide)

/-- C10: a payload whose `audio_b64` field holds the empty string is
rejected at the field-validation step — `not isinstance(b64, str) or not
b64` — with the same `ValueError` as a wrong-typed field (the empty
string is falsy).  The base64 step is never the cause (the empty string
IS valid base64: it decodes to zero bytes) and the audio-decode step is
never reached (the outcome is independent of the audio decoder). -/
theorem c10_empty_audio_b64_rejected_at_field_step :
    ∀ (sfRead sfRead2 : SfRead) (fields : List (String × JsonVal)),
      List.lookup "audio_b64" fields = some (.str "") →
      input_fn sfRead (.parsed (.obj fields)) "application/json"
        = .error (.valueError "\x27audio_b64\x27 must be a non-empty base64 string.")
      ∧ input_fn sfRead (.parsed (.obj fields)) "application/json"
        = input_fn sfRead2 (.parsed (.obj fields)) "application/json"
      ∧ input_fn sfRead (.parsed (.obj [("audio_b64", .num 0)])) "application/json"
        = .error (.valueError "\x27audio_b64\x27 must be a non-empty base64 string.")
      ∧ b64decodeStrict "" = .ok [] := by
  intro sfRead sfRead2 fields hl
  have key : ∀ sf : SfRead,
      input_fn sf (.parsed (.obj fields)) "application/json"
        = .error (.valueError "\x27audio_b64\x27 must be a non-empty base64 string.") := by
    intro sf
    unfold input_fn
    dsimp only [pyContains, pyIndex]
    rw [if_neg (by simp), hl]
    rfl
  exact ⟨key sfRead, (key sfRead).trans (key sfRead2).symm, rfl, rfl⟩

/-- C10 witness: the rejection at a concrete one-field payload. -/
theorem c10_empty_audio_b64_rejected_at_field_step_witness :
    input_fn sfReadStub (.parsed (.obj [("audio_b64", .str "")])) "application/json"
      = .error (.valueError "\x27audio_b64\x27 must be a non-empty base64 string.")
    ∧ input_fn sfReadStub (.parsed (.obj [("audio_b64", .str "")])) "application/json"
      = input_fn sfReadStub (.parsed (.obj [("audio_b64", .str "")])) "application/json"
    ∧ input_fn sfReadStub (.parsed (.obj [("audio_b64", .num 0)])) "application/json"
      = .error (.valueError "\x27audio_b64\x27 must be a non-empty base64 string.")
    ∧ b64decodeStrict "" = .ok [] :=
  c10_empty_audio_b64_rejected_at_field_step sfReadStub sfReadStub
    [("audio_b64", .str "")] rfl

/-- Lowercase hex digit, as `json.dumps` writes in `\u00xx` escapes. -/
def hexDig (n : Nat) : Char :=
  if n < 10 then Char.ofNat ('0'.toNat + n) else Char.ofNat ('a'.toNat + (n - 10))

/-- Numeric value of a lowercase hex digit (inverse of `hexDig`). -/
def hexVal (c : Char) : Nat :=
  if '0' ≤ c && c ≤ '9' then c.toNat - '0'.toNat
  else if 'a' ≤ c && c ≤ 'f' then c.toNat - 'a'.toNat + 10
  else 0

/-- Per-character JSON string escaping exactly as `json.dumps` with
`ensure_ascii=False` performs it: `"` and backslash escaped, the five
named control escapes, `\u00xx` (lowercase hex) for the remaining
control characters below 0x20, and every other character verbatim. -/
def escChar (c : Char) : List Char :=
  if c = '"' then ['\\', '"']
  else if c = '\\' then ['\\', '\\']
  else if c = '\n' then ['\\', 'n']
  else if c = '\r' then ['\\', 'r']
  else if c = '\t' then ['\\', 't']
  else if c = '\x08' then ['\\', 'b']
  else if c = '\x0c' then ['\\', 'f']
  else if c.toNat < 32 then
    ['\\', 'u', '0', '0', hexDig (c.toNat / 16), hexDig (c.toNat % 16)]
  else [c]

/-- The characters `json.dumps({"text": ...})` emits before the escaped
transcript: open brace, the quoted key `text`, colon, space, quote. -/
def envelopeHead : List Char :=
  ['\x7b', '"', 't', 'e', 'x', 't', '"', ':', ' ', '"']

/-- Model of `json.dumps({"text": pred}, ensure_ascii=False)`
(model/inference.py:153): the fixed single-field envelope with the
transcript escaped per `escChar`, closed by a quote and the brace. -/
def dumpsTextEnvelope (pred : String) : String :=
  String.mk (envelopeHead ++ (pred.data.map escChar).flatten ++ ['"', '\x7d'])

/-- Model of `output_fn` (model/inference.py:145-154): the JSON envelope
and the fixed content type, plus (second component) whether the
non-fatal warning was logged — exactly when `accept` differs from
"application/json"; the returned pair does not depend on `accept`. -/
def output_fn (pred : String) (accept : String) : (String × String) × Bool :=
  ((dumpsTextEnvelope pred, "application/json"),
   if accept ≠ "application/json" then true else false)

/-- Decode the portion of a JSON string body following a backslash: the
recognized escape yields the decoded character and the remaining input;
anything else is malformed.  (Not recursive — one escape at a time.) -/
def escLookup : List Char → Option (Char × List Char)
  | '"' :: r => some ('"', r)
  | '\\' :: r => some ('\\', r)
  | 'n' :: r => some ('\n', r)
  | 'r' :: r => some ('\r', r)
  | 't' :: r => some ('\t', r)
  | 'b' :: r => some ('\x08', r)
  | 'f' :: r => some ('\x0c', r)
  | 'u' :: '0' :: '0' :: h1 :: h2 :: r => some (Char.ofNat (16 * hexVal h1 + hexVal h2), r)
  | _ => none

/-- Fuel-indexed inverse JSON string scanner: consumes characters up to
the closing unescaped quote, undoing `escChar`; returns the decoded
characters and the remainder after the quote, `none` on a malformed body
or exhausted fuel.  Each produced character costs one unit of fuel, so
any fuel exceeding the input length suffices. -/
def unescGo : Nat → List Char → Option (List Char × List Char)
  | 0, _ => none
  | _ + 1, [] => none
  | fuel + 1, c :: rest =>
    if c = '"' then some ([], rest)
    else if c = '\\' then
      match escLookup rest with
      | none => none
      | some (d, r) => (unescGo fuel r).map (fun p => (d :: p.1, p.2))
    else (unescGo fuel rest).map (fun p => (c :: p.1, p.2))

/-- Inverse JSON string scanner (fuel instantiated to suffice). -/
def unescBody (l : List Char) : Option (List Char × List Char) :=
  unescGo (l.length + 1) l

/-- Recover the transcript from a response body of the fixed envelope
shape; `none` when the body is not such an envelope. -/
def parseTextEnvelope (body : String) : Option String :=
  if body.data.take 10 = envelopeHead then
    match unescBody (body.data.drop 10) with
    | some (txt, ['\x7d']) => some (String.mk txt)
    | _ => none
  else none


theorem hexVal_hexDig : ∀ m, m < 16 → hexVal (hexDig m) = m := by decide

theorem unescGo_quote (f : Nat) (l : List Char) :
    unescGo (f + 1) ('"' :: l) = some ([], l) := rfl

theorem unescGo_esc_quote (f : Nat) (l : List Char) :
    unescGo (f + 1) ('\\' :: '"' :: l)
      = (unescGo f l).map (fun p => ('"' :: p.1, p.2)) := rfl

theorem unescGo_esc_bs (f : Nat) (l : List Char) :
    unescGo (f + 1) ('\\' :: '\\' :: l)
      = (unescGo f l).map (fun p => ('\\' :: p.1, p.2)) := rfl

theorem unescGo_esc_n (f : Nat) (l : List Char) :
    unescGo (f + 1) ('\\' :: 'n' :: l)
      = (unescGo f l).map (fun p => ('\n' :: p.1, p.2)) := rfl

theorem unescGo_esc_r (f : Nat) (l : List Char) :
    unescGo (f + 1) ('\\' :: 'r' :: l)
      = (unescGo f l).map (fun p => ('\r' :: p.1, p.2)) := rfl

theorem unescGo_esc_t (f : Nat) (l : List Char) :
    unescGo (f + 1) ('\\' :: 't' :: l)
      = (unescGo f l).map (fun p => ('\t' :: p.1, p.2)) := rfl

theorem unescGo_esc_b (f : Nat) (l : List Char) :
    unescGo (f + 1) ('\\' :: 'b' :: l)
      = (unescGo f l).map (fun p => ('\x08' :: p.1, p.2)) := rfl

theorem unescGo_esc_f (f : Nat) (l : List Char) :
    unescGo (f + 1) ('\\' :: 'f' :: l)
      = (unescGo f l).map (fun p => ('\x0c' :: p.1, p.2)) := rfl

theorem unescGo_esc_u (f : Nat) (h1 h2 : Char) (l : List Char) :
    unescGo (f + 1) ('\\' :: 'u' :: '0' :: '0' :: h1 :: h2 :: l)
      = (unescGo f l).map
          (fun p => (Char.ofNat (16 * hexVal h1 + hexVal h2) :: p.1, p.2)) := rfl

theorem unescGo_plain (f : Nat) (c : Char) (l : List Char)
    (hq : c ≠ '"') (hb : c ≠ '\\') :
    unescGo (f + 1) (c :: l) = (unescGo f l).map (fun p => (c :: p.1, p.2)) := by
  rw [unescGo, if_neg hq, if_neg hb]

/-- Escaping never erases characters: the escaped stream is at least as
long as the source. -/
theorem le_flatten_length (cs : List Char) :
    cs.length ≤ ((cs.map escChar).flatten).length := by
  induction cs with
  | nil => simp
  | cons c cs ih =>
    simp only [List.map_cons, List.flatten_cons, List.length_append, List.length_cons]
    have h1 : 1 ≤ (escChar c).length := by
      unfold escChar
      repeat' split
      all_goals simp
    omega

/-- Scanning the escaped form of `cs` followed by a closing quote, with
enough fuel, recovers `cs` exactly and leaves the remainder untouched. -/
theorem unescGo_escape :
    ∀ (cs : List Char) (fuel : Nat) (tail : List Char), cs.length < fuel →
      unescGo fuel ((cs.map escChar).flatten ++ '"' :: tail) = some (cs, tail) := by
  intro cs
  induction cs with
  | nil =>
    intro fuel tail hf
    obtain ⟨f, rfl⟩ : ∃ f, fuel = f + 1 := ⟨fuel - 1, by omega⟩
    simp only [List.map_nil, List.flatten_nil, List.nil_append]
    exact unescGo_quote f tail
  | cons c cs ih =>
    intro fuel tail hf
    obtain ⟨f, rfl⟩ : ∃ f, fuel = f + 1 := ⟨fuel - 1, by omega⟩
    have hcs : cs.length < f := by
      simp only [List.length_cons] at hf
      omega
    simp only [List.map_cons, List.flatten_cons, List.append_assoc]
    by_cases h1 : c = '"'
    · subst h1
      rw [show escChar '"' = ['\\', '"'] from rfl]
      simp only [List.cons_append, List.nil_append]
      rw [unescGo_esc_quote, ih f tail hcs]
      rfl
    · by_cases h2 : c = '\\'
      · subst h2
        rw [show escChar '\\' = ['\\', '\\'] from rfl]
        simp only [List.cons_append, List.nil_append]
        rw [unescGo_esc_bs, ih f tail hcs]
        rfl
      · by_cases h3 : c = '\n'
        · subst h3
          rw [show escChar '\n' = ['\\', 'n'] from rfl]
          simp only [List.cons_append, List.nil_append]
          rw [unescGo_esc_n, ih f tail hcs]
          rfl
        · by_cases h4 : c = '\r'
          · subst h4
            rw [show escChar '\r' = ['\\', 'r'] from rfl]
            simp only [List.cons_append, List.nil_append]
            rw [unescGo_esc_r, ih f tail hcs]
            rfl
          · by_cases h5 : c = '\t'
            · subst h5
              rw [show escChar '\t' = ['\\', 't'] from rfl]
              simp only [List.cons_append, List.nil_append]
              rw [unescGo_esc_t, ih f tail hcs]
              rfl
            · by_cases h6 : c = '\x08'
              · subst h6
                rw [show escChar '\x08' = ['\\', 'b'] from rfl]
                simp only [List.cons_append, List.nil_append]
                rw [unescGo_esc_b, ih f tail hcs]
                rfl
              · by_cases h7 : c = '\x0c'
                · subst h7
                  rw [show escChar '\x0c' = ['\\', 'f'] from rfl]
                  simp only [List.cons_append, List.nil_append]
                  rw [unescGo_esc_f, ih f tail hcs]
                  rfl
                · by_cases h8 : c.toNat < 32
                  · have he : escChar c
                        = ['\\', 'u', '0', '0', hexDig (c.toNat / 16),
                           hexDig (c.toNat % 16)] := by
                      unfold escChar
                      rw [if_neg h1, if_neg h2, if_neg h3, if_neg h4, if_neg h5, if_neg h6,
                        if_neg h7, if_pos h8]
                    rw [he]
                    simp only [List.cons_append, List.nil_append]
                    rw [unescGo_esc_u, ih f tail hcs]
                    show some (Char.ofNat (16 * hexVal (hexDig (c.toNat / 16))
                        + hexVal (hexDig (c.toNat % 16))) :: cs, tail)
                      = some (c :: cs, tail)
                    rw [hexVal_hexDig _ (by omega), hexVal_hexDig _ (by omega),
                      Nat.div_add_mod, Char.ofNat_toNat]
                  · have he : escChar c = [c] := by
                      unfold escChar
                      rw [if_neg h1, if_neg h2, if_neg h3, if_neg h4, if_neg h5, if_neg h6,
                        if_neg h7, if_neg h8]
                    rw [he]
                    simp only [List.cons_append, List.nil_append]
                    rw [unescGo_plain f c _ h1 h2, ih f tail hcs]
                    rfl

/-- Scanning the escaped form of `cs` followed by a closing quote
recovers `cs` exactly and leaves the remainder untouched. -/
theorem unescBody_escape (cs tail : List Char) :
    unescBody ((cs.map escChar).flatten ++ '"' :: tail) = some (cs, tail) := by
  unfold unescBody
  apply unescGo_escape
  have := le_flatten_length cs
  simp only [List.length_append, List.length_cons]
  omega

/-- C9: for every transcript and every accept type, `output_fn` returns
the fixed JSON envelope and the content type "application/json": the
body parses back to the transcript verbatim under the fixed field name
"text" (round-trip through the escape), the returned (body, contentType)
pair is identical to the one returned for the expected accept type, and
a differing accept type only triggers the non-fatal warning. -/
theorem c9_output_envelope :
    ∀ (pred accept : String),
      (output_fn pred accept).1.2 = "application/json"
      ∧ parseTextEnvelope (output_fn pred accept).1.1 = some pred
      ∧ (output_fn pred accept).1 = (output_fn pred "application/json").1
      ∧ ((output_fn pred accept).2 = true ↔ accept ≠ "application/json") := by
  intro pred accept
  refine ⟨rfl, ?_, rfl, ?_⟩
  · obtain ⟨l⟩ := pred
    show parseTextEnvelope (dumpsTextEnvelope (String.mk l)) = some (String.mk l)
    unfold parseTextEnvelope dumpsTextEnvelope
    rw [show (String.mk (envelopeHead ++ (l.map escChar).flatten ++ ['"', '\x7d'])).data
        = envelopeHead ++ ((l.map escChar).flatten ++ ['"', '\x7d']) from by
          simp [List.append_assoc]]
    rw [List.take_left' (by rfl), List.drop_left' (by rfl), if_pos rfl]
    rw [show ((l.map escChar).flatten ++ ['"', '\x7d'])
        = (l.map escChar).flatten ++ '"' :: ['\x7d'] from rfl]
    rw [unescBody_escape]
    rfl
  · by_cases h : accept = "application/json" <;> simp [output_fn, h]
